import Mathlib

/-!
Verification of the webhook-signature verifier and the UPS OAuth token cache
of src/server.js.

The development shallowly embeds the two core components the specification
covers:

* parseHeader / verifyTilledWebhook — parsing of the tilled-signature header,
  the replay-tolerance check, reconstruction of the signed payload, HMAC-SHA256
  computation and the timingSafeEqual comparison.  JavaScript exceptions are
  modelled with Except: a value Except.error e is a thrown exception that the
  function does not catch, Except.ok b is an ordinary boolean return.
* getUPSToken — the process-wide token cache, modelled by explicit state
  passing: the function receives the cache record and the current time and
  returns the result, the new cache record, and the number of token-endpoint
  calls it performed.

External collaborators are embedded from their documented behaviour:
Node's crypto module (HMAC-SHA256, hex digests, Buffer.from(s, 'hex'),
timingSafeEqual), JavaScript string/number primitives (split, parseInt,
template literals, NaN comparison semantics), and the express.json body
parsing middleware (standard JSON parsing).  Machine integers are modelled
with Nat/Int; the time comparison, written over floats in JavaScript, is
modelled over ℚ, which agrees with IEEE doubles on every integral-millisecond
input in the representable range (the error of the double computation is
below 1e-6 while non-boundary inputs are at distance ≥ 1e-3 from the
threshold, and exact-boundary inputs divide evenly so the double computation
is exact).
-/

namespace Tilled

/-! Bytes and hex encoding.

strBytes models extracting the bytes of a JavaScript string as UTF-8 via the
character code points; for strings of ASCII characters (every string handled
by this service: hex digits, JSON punctuation, header fields) the code point
equals the single UTF-8 byte. -/

def strBytes (s : String) : List Nat := s.data.map Char.toNat

/-- hexDigit maps a value 0..15 to its lowercase hex character, as Node's
Buffer#toString('hex') produces. -/
def hexDigit (n : Nat) : Char :=
  if n < 10 then Char.ofNat (48 + n) else Char.ofNat (87 + n)

/-- bytesToHex is Node's Buffer#toString('hex'): each byte becomes two
lowercase hex characters. -/
def bytesToHex (bs : List Nat) : String :=
  String.mk (bs.foldr (fun b acc => hexDigit (b / 16) :: hexDigit (b % 16) :: acc) [])

/-- hexVal decodes one hex character (either case), none for a non-hex
character. -/
def hexVal (c : Char) : Option Nat :=
  if 48 ≤ c.toNat ∧ c.toNat ≤ 57 then some (c.toNat - 48)
  else if 97 ≤ c.toNat ∧ c.toNat ≤ 102 then some (c.toNat - 87)
  else if 65 ≤ c.toNat ∧ c.toNat ≤ 70 then some (c.toNat - 55)
  else none

/-- bufferFromHex is Node's Buffer.from(s, 'hex'): decode hex pairs from the
left, stop silently at the first pair that is not two hex characters (and
drop a trailing lone character).  Malformed hex never throws; it yields a
truncated buffer. -/
def bufferFromHex : List Char → List Nat
  | c1 :: c2 :: rest =>
    match hexVal c1, hexVal c2 with
    | some hi, some lo => (16 * hi + lo) :: bufferFromHex rest
    | _, _ => []
  | _ => []

/-! SHA-256, embedded from FIPS 180-4, and HMAC-SHA256 from RFC 2104.
These model Node's crypto.createHmac('sha256', secret).update(payload)
used by src/server.js.  Words are Nat taken modulo 2^32. -/

/-- w32 truncates to a 32-bit word. -/
def w32 (n : Nat) : Nat := n % 4294967296

/-- rotr is 32-bit right rotation. -/
def rotr (n x : Nat) : Nat := w32 ((x >>> n) ||| (x <<< (32 - n)))

def bsig0 (x : Nat) : Nat := (rotr 2 x) ^^^ (rotr 13 x) ^^^ (rotr 22 x)

def bsig1 (x : Nat) : Nat := (rotr 6 x) ^^^ (rotr 11 x) ^^^ (rotr 25 x)

def ssig0 (x : Nat) : Nat := (rotr 7 x) ^^^ (rotr 18 x) ^^^ (x >>> 3)

def ssig1 (x : Nat) : Nat := (rotr 17 x) ^^^ (rotr 19 x) ^^^ (x >>> 10)

def ch (x y z : Nat) : Nat := (x &&& y) ^^^ ((x ^^^ 4294967295) &&& z)

def maj (x y z : Nat) : Nat := (x &&& y) ^^^ (x &&& z) ^^^ (y &&& z)

/-- K is the SHA-256 round-constant table (FIPS 180-4, decimal). -/
def K : List Nat :=
  [1116352408, 1899447441, 3049323471, 3921009573, 961987163, 1508970993,
   2453635748, 2870763221, 3624381080, 310598401, 607225278, 1426881987,
   1925078388, 2162078206, 2614888103, 3248222580, 3835390401, 4022224774,
   264347078, 604807628, 770255983, 1249150122, 1555081692, 1996064986,
   2554220882, 2821834349, 2952996808, 3210313671, 3336571891, 3584528711,
   113926993, 338241895, 666307205, 773529912, 1294757372, 1396182291,
   1695183700, 1986661051, 2177026350, 2456956037, 2730485921, 2820302411,
   3259730800, 3345764771, 3516065817, 3600352804, 4094571909, 275423344,
   430227734, 506948616, 659060556, 883997877, 958139571, 1322822218,
   1537002063, 1747873779, 1955562222, 2024104815, 2227730452, 2361852424,
   2428436474, 2756734187, 3204031479, 3329325298]

/-- scheduleExtend extends the message schedule; the accumulator holds the
schedule words produced so far in reverse order. -/
def scheduleExtend : Nat → List Nat → List Nat
  | 0, acc => acc
  | n + 1, acc =>
    scheduleExtend n
      (w32 (ssig1 (acc.getD 1 0) + acc.getD 6 0 + ssig0 (acc.getD 14 0) + acc.getD 15 0) :: acc)

/-- mkSchedule produces the 64-word message schedule of a 16-word block. -/
def mkSchedule (block : List Nat) : List Nat :=
  (scheduleExtend 48 block.reverse).reverse

/-- H8 is the eight-word SHA-256 working state. -/
structure H8 where
  a : Nat
  b : Nat
  c : Nat
  d : Nat
  e : Nat
  f : Nat
  g : Nat
  h : Nat

/-- shaRound is one SHA-256 compression round. -/
def shaRound (st : H8) (kw : Nat × Nat) : H8 :=
  let t1 := w32 (st.h + bsig1 st.e + ch st.e st.f st.g + kw.1 + kw.2)
  let t2 := w32 (bsig0 st.a + maj st.a st.b st.c)
  ⟨w32 (t1 + t2), st.a, st.b, st.c, w32 (st.d + t1), st.e, st.f, st.g⟩

/-- compress runs the 64 rounds on one block and adds the result into the
chaining state. -/
def compress (st : H8) (block : List Nat) : H8 :=
  let fin := ((K.zip (mkSchedule block)).foldl shaRound st)
  ⟨w32 (st.a + fin.a), w32 (st.b + fin.b), w32 (st.c + fin.c), w32 (st.d + fin.d),
   w32 (st.e + fin.e), w32 (st.f + fin.f), w32 (st.g + fin.g), w32 (st.h + fin.h)⟩

/-- initH is the SHA-256 initial hash value (FIPS 180-4, decimal). -/
def initH : H8 :=
  ⟨1779033703, 3144134277, 1013904242, 2773480762,
   1359893119, 2600822924, 528734635, 1541459225⟩

/-- toWords packs bytes into 4-byte big-endian words. -/
def toWords : List Nat → List Nat
  | b0 :: b1 :: b2 :: b3 :: rest => (((b0 * 256 + b1) * 256 + b2) * 256 + b3) :: toWords rest
  | _ => []

/-- chunks16 splits a word list into 16-word blocks (padding guarantees the
length is a multiple of 16). -/
def chunks16 : List Nat → List (List Nat)
  | a1 :: a2 :: a3 :: a4 :: a5 :: a6 :: a7 :: a8 ::
    a9 :: a10 :: a11 :: a12 :: a13 :: a14 :: a15 :: a16 :: rest =>
      [a1, a2, a3, a4, a5, a6, a7, a8, a9, a10, a11, a12, a13, a14, a15, a16] :: chunks16 rest
  | _ => []

/-- padMessage appends the SHA-256 padding: a 0x80 byte, zeros, and the
message bit length as 8 big-endian bytes, to a multiple of 64 bytes.  The
zero count is 55 - length mod 64, taken modulo 64, written as
(119 - length mod 64) mod 64 so the subtraction never truncates in Nat
(length mod 64 is at most 63 < 119). -/
def padMessage (msg : List Nat) : List Nat :=
  let bitLen := msg.length * 8
  msg ++ [0x80] ++ List.replicate ((119 - msg.length % 64) % 64) 0 ++
    [bitLen >>> 56 % 256, bitLen >>> 48 % 256, bitLen >>> 40 % 256, bitLen >>> 32 % 256,
     bitLen >>> 24 % 256, bitLen >>> 16 % 256, bitLen >>> 8 % 256, bitLen % 256]

/-- wordBytes unpacks a 32-bit word into 4 big-endian bytes. -/
def wordBytes (wrd : Nat) : List Nat :=
  [wrd >>> 24 % 256, wrd >>> 16 % 256, wrd >>> 8 % 256, wrd % 256]

/-- sha256 of a byte list, as 32 digest bytes. -/
def sha256 (msg : List Nat) : List Nat :=
  let st := (chunks16 (toWords (padMessage msg))).foldl compress initH
  wordBytes st.a ++ wordBytes st.b ++ wordBytes st.c ++ wordBytes st.d ++
  wordBytes st.e ++ wordBytes st.f ++ wordBytes st.g ++ wordBytes st.h

/-- hmacSHA256 per RFC 2104 with a 64-byte block: key padded (or hashed when
longer than a block), inner hash over ipad, outer hash over opad. -/
def hmacSHA256 (key msg : List Nat) : List Nat :=
  let k0 := if key.length > 64 then sha256 key else key
  let kp := k0 ++ List.replicate (64 - k0.length) 0
  sha256 ((kp.map (fun b => b ^^^ 0x5c)) ++ sha256 ((kp.map (fun b => b ^^^ 0x36)) ++ msg))

/-- hmacSHA256Hex is crypto.createHmac('sha256', secret).update(payload).digest('hex'). -/
def hmacSHA256Hex (secret payload : String) : String :=
  bytesToHex (hmacSHA256 (strBytes secret) (strBytes payload))

/-! JSON values.

The webhook route installs app.use(express.json()), so the handler — and
verifyTilledWebhook through req.body — only ever sees the parsed JSON value,
never the raw request bytes.  Json is the value type, jsonStringify is
JSON.stringify (no added whitespace, object keys kept in order), and
jsonParse models the express.json middleware (JSON.parse plus the default
strict mode that accepts only objects and arrays at top level).  The model
covers JSON texts with integer numbers and escape-free strings, which
includes every payload in the specification. -/

inductive Json where
  | null : Json
  | bool (b : Bool) : Json
  | num (n : Int) : Json
  | str (s : String) : Json
  | arr (xs : List Json) : Json
  | obj (fields : List (String × Json)) : Json

/-- escapeChars performs the JSON string escaping of quote and backslash. -/
def escapeChars : List Char → List Char
  | [] => []
  | c :: rest =>
    if c = '"' then '\\' :: '"' :: escapeChars rest
    else if c = '\\' then '\\' :: '\\' :: escapeChars rest
    else c :: escapeChars rest

/-- quoteStr renders a JSON string literal. -/
def quoteStr (s : String) : String :=
  String.mk ('"' :: escapeChars s.data ++ ['"'])

mutual

/-- jsonStringify is JSON.stringify: compact rendering, no inserted
whitespace, object keys in insertion order. -/
def jsonStringify : Json → String
  | .null => "null"
  | .bool true => "true"
  | .bool false => "false"
  | .num n => toString n
  | .str s => quoteStr s
  | .arr xs => "[" ++ stringifyElems xs ++ "]"
  | .obj fs => "\x7b" ++ stringifyFields fs ++ "\x7d"

/-- stringifyElems renders array elements joined by commas. -/
def stringifyElems : List Json → String
  | [] => ""
  | [x] => jsonStringify x
  | x :: rest => jsonStringify x ++ "," ++ stringifyElems rest

/-- stringifyFields renders object members joined by commas. -/
def stringifyFields : List (String × Json) → String
  | [] => ""
  | [(k, v)] => quoteStr k ++ ":" ++ jsonStringify v
  | (k, v) :: rest => quoteStr k ++ ":" ++ jsonStringify v ++ "," ++ stringifyFields rest

end

/-- isWsChar recognises the JSON whitespace characters. -/
def isWsChar (c : Char) : Bool :=
  c = ' ' ∨ c = '\t' ∨ c = '\n' ∨ c = '\r'

/-- skipWs drops leading JSON whitespace. -/
def skipWs (cs : List Char) : List Char := cs.dropWhile isWsChar

/-- isDigitChar recognises a decimal digit. -/
def isDigitChar (c : Char) : Bool := 48 ≤ c.toNat ∧ c.toNat ≤ 57

/-- digitsToNat folds decimal digits into a number. -/
def digitsToNat (ds : List Char) : Nat :=
  ds.foldl (fun a c => 10 * a + (c.toNat - 48)) 0

/-- parseDigits reads one or more leading decimal digits. -/
def parseDigits (cs : List Char) : Option (Nat × List Char) :=
  match cs.takeWhile isDigitChar with
  | [] => none
  | ds => some (digitsToNat ds, cs.dropWhile isDigitChar)

/-- parseStringBody reads the rest of a JSON string literal after the opening
quote; escape sequences are outside the modelled subset and rejected. -/
def parseStringBody : List Char → Option (String × List Char)
  | [] => none
  | c :: rest =>
    if c = '"' then some ("", rest)
    else if c = '\\' then none
    else (parseStringBody rest).map (fun p => (String.mk (c :: p.1.data), p.2))

mutual

/-- parseValue reads one JSON value; the fuel argument bounds recursion depth
and is in practice never exhausted since every recursive call consumes input. -/
def parseValue : Nat → List Char → Option (Json × List Char)
  | 0, _ => none
  | fuel + 1, cs =>
    match skipWs cs with
    | '"' :: rest => (parseStringBody rest).map (fun p => (Json.str p.1, p.2))
    | '-' :: rest => (parseDigits rest).map (fun p => (Json.num (-(p.1 : Int)), p.2))
    | 't' :: 'r' :: 'u' :: 'e' :: rest => some (Json.bool true, rest)
    | 'f' :: 'a' :: 'l' :: 's' :: 'e' :: rest => some (Json.bool false, rest)
    | 'n' :: 'u' :: 'l' :: 'l' :: rest => some (Json.null, rest)
    | '[' :: rest =>
      (match skipWs rest with
       | ']' :: rest1 => some (Json.arr [], rest1)
       | cs1 => (parseElems fuel cs1).map (fun p => (Json.arr p.1, p.2)))
    | '\x7b' :: rest =>
      (match skipWs rest with
       | '\x7d' :: rest1 => some (Json.obj [], rest1)
       | cs1 => (parseMembers fuel cs1).map (fun p => (Json.obj p.1, p.2)))
    | cs1 => (parseDigits cs1).map (fun p => (Json.num (p.1 : Int), p.2))

/-- parseElems reads comma-separated array elements up to the closing bracket. -/
def parseElems : Nat → List Char → Option (List Json × List Char)
  | 0, _ => none
  | fuel + 1, cs =>
    match parseValue fuel cs with
    | none => none
    | some (v, rest) =>
      match skipWs rest with
      | ']' :: rest1 => some ([v], rest1)
      | ',' :: rest1 =>
        (parseElems fuel rest1).map (fun p => (v :: p.1, p.2))
      | _ => none

/-- parseMembers reads comma-separated object members up to the closing brace. -/
def parseMembers : Nat → List Char → Option (List (String × Json) × List Char)
  | 0, _ => none
  | fuel + 1, cs =>
    match skipWs cs with
    | '"' :: rest =>
      (match parseStringBody rest with
       | none => none
       | some (k, rest1) =>
         match skipWs rest1 with
         | ':' :: rest2 =>
           (match parseValue fuel rest2 with
            | none => none
            | some (v, rest3) =>
              match skipWs rest3 with
              | '\x7d' :: rest4 => some ([(k, v)], rest4)
              | ',' :: rest4 =>
                (parseMembers fuel rest4).map (fun p => ((k, v) :: p.1, p.2))
              | _ => none)
         | _ => none)
    | _ => none

end

/-- jsonParse models the express.json middleware applied to the raw request
body: JSON.parse of the text, with the middleware's default strict mode that
accepts only an object or an array at top level. -/
def jsonParse (s : String) : Option Json :=
  match parseValue (s.data.length + 1) s.data with
  | some (v, rest) =>
    if (skipWs rest).isEmpty then
      match v with
      | Json.obj _ => some v
      | Json.arr _ => some v
      | _ => none
    else none
  | none => none

/-! The tilled-signature header parser, embedded from parseHeader in
src/server.js (lines 167-180).

A parsed field starts as the numeric sentinel -1 and is overwritten by the
string (or undefined) value of the matching key=value item, so its JavaScript
value ranges over three shapes, captured by TSVal:
* sentinel — the initial -1, meaning the key never occurred;
* str s — kv[1] when the item had at least one '=' (Array#split yields the
  text between the first and second '='), which is what the strict
  comparison === -1 lets through;
* undef — kv[1] === undefined when the item had no '=' at all (kv has a
  single element), which also passes the !== -1 check. -/

inductive TSVal where
  | sentinel : TSVal
  | str (s : String) : TSVal
  | jsUndefined : TSVal
deriving DecidableEq

/-- ParsedHeader is the accumulator object of parseHeader:
initially both fields hold the sentinel -1. -/
structure ParsedHeader where
  timestamp : TSVal
  signature : TSVal
deriving DecidableEq

/-- splitOnChar is JavaScript's String#split with a one-character separator:
the empty string yields one empty piece, and every separator occurrence
starts a new piece. -/
def splitOnChar (sep : Char) : List Char → List (List Char)
  | [] => [[]]
  | c :: rest =>
    let r := splitOnChar sep rest
    if c = sep then [] :: r
    else
      match r with
      | h :: t => (c :: h) :: t
      | [] => [[c]]

/-- kvKey is kv[0]: the text before the first '=' of an item (the whole item
when it has no '='). -/
def kvKey : List (List Char) → List Char
  | k :: _ => k
  | [] => []

/-- kvValue is kv[1]: the text between the first and second '=' when the item
has one, undefined otherwise. -/
def kvValue : List (List Char) → TSVal
  | _ :: v :: _ => .str (String.mk v)
  | _ => .jsUndefined

/-- parseHeaderStep is the body of the reduce callback in parseHeader: split
the item on '=', assign kv[1] to timestamp when kv[0] is 't', then to
signature when kv[0] is the scheme. -/
def parseHeaderStep (scheme : String) (accum : ParsedHeader) (item : List Char) : ParsedHeader :=
  let kv := splitOnChar '=' item
  let accum1 := if kvKey kv = "t".data then { accum with timestamp := kvValue kv } else accum
  if kvKey kv = scheme.data then { accum1 with signature := kvValue kv } else accum1

/-- HeaderValue is the JavaScript value of req.headers['tilled-signature']:
missing, a string, or a non-string value (Node represents repeated headers
as an array). -/
inductive HeaderValue where
  | absent : HeaderValue
  | str (s : String) : HeaderValue
  | nonString : HeaderValue
deriving DecidableEq

/-- parseHeader from src/server.js lines 167-180: null when the header is not
a string, otherwise the reduce over the comma-separated items starting from
the sentinel accumulator. -/
def parseHeader (header : HeaderValue) (scheme : String) : Option ParsedHeader :=
  match header with
  | .str s =>
    some ((splitOnChar ',' s.data).foldl (parseHeaderStep scheme)
      { timestamp := .sentinel, signature := .sentinel })
  | _ => none

/-- SCHEME from src/server.js line 164: the only valid scheme tag. -/
def SCHEME : String := "v1"

/-! verifyTilledWebhook, embedded from src/server.js lines 183-214. -/

/-- headerFalsy is the JavaScript truthiness test !tilledSignature: a missing
header and the empty string are falsy; any non-empty string and any array
value are truthy. -/
def headerFalsy : HeaderValue → Bool
  | .absent => true
  | .str s => s = ""
  | .nonString => false

/-- jsParseIntChars is parseInt(s, 10): skip leading whitespace, read an
optional sign and one or more decimal digits; none models the NaN result
when no digit follows. -/
def jsParseIntChars (cs : List Char) : Option Int :=
  match cs.dropWhile isWsChar with
  | '-' :: rest => (parseDigits rest).map (fun p => -(p.1 : Int))
  | '+' :: rest => (parseDigits rest).map (fun p => (p.1 : Int))
  | cs1 => (parseDigits cs1).map (fun p => (p.1 : Int))

/-- jsParseInt is parseInt(details.timestamp, 10) on the three value shapes:
a string parses directly, undefined is first converted to the string
"undefined" (hence NaN), and the sentinel number -1 to "-1". -/
def jsParseInt : TSVal → Option Int
  | .str s => jsParseIntChars s.data
  | .jsUndefined => jsParseIntChars "undefined".data
  | .sentinel => jsParseIntChars "-1".data

/-- timestampOutsideTolerance is the replay check of lines 193-198:
timestamp = parseInt(details.timestamp, 10) / 1000 and the test
Math.abs(now - timestamp) > tolerance.  When parseInt yields NaN every
arithmetic result is NaN and the > comparison is false, so the check never
rejects; the numeric case is exact rational arithmetic, which agrees with
the double computation on integral-millisecond timestamps (see the header
comment). -/
def timestampOutsideTolerance (now : Int) (tsRaw : TSVal) (tolerance : Int) : Bool :=
  match jsParseInt tsRaw with
  | none => false
  | some t => decide (|(now : ℚ) - (t : ℚ) / 1000| > (tolerance : ℚ))

/-- templateString is the template-literal interpolation of a TSVal, as in
the payload construction on line 201. -/
def TSVal.templateString : TSVal → String
  | .sentinel => "-1"
  | .str s => s
  | .jsUndefined => "undefined"

/-- signedPayload is line 201: the template literal
timestamp + '.' + JSON.stringify(req.body).  Note that the body component is
the re-serialization of the parsed body object, not the raw request bytes. -/
def signedPayload (tsRaw : TSVal) (body : Json) : String :=
  tsRaw.templateString ++ "." ++ jsonStringify body

/-- timingSafeEqual is crypto.timingSafeEqual: buffers of unequal length make
it throw ERR_CRYPTO_TIMING_SAFE_EQUAL_LENGTH (modelled as Except.error);
equal-length buffers compare to a boolean. -/
def timingSafeEqual (a b : List Nat) : Except String Bool :=
  if a.length = b.length then .ok (decide (a = b))
  else .error "ERR_CRYPTO_TIMING_SAFE_EQUAL_LENGTH"

/-- signatureComparison is lines 209-213: decode both hex strings with
Buffer.from(·, 'hex') and compare with timingSafeEqual.  When the parsed
signature is the undefined of a bare scheme item, Buffer.from(undefined,
'hex') itself throws ERR_INVALID_ARG_TYPE. -/
def signatureComparison (expectedSignature : String) (provided : TSVal) : Except String Bool :=
  match provided with
  | .str s => timingSafeEqual (bufferFromHex expectedSignature.data) (bufferFromHex s.data)
  | _ => .error "ERR_INVALID_ARG_TYPE"

/-- defaultToleranceSeconds is the default of the tolerance parameter on
line 183: 5 * 60 seconds; both webhook routes call the verifier without a
tolerance argument, hence with this value. -/
def defaultToleranceSeconds : Int := 5 * 60

/-- WebhookRequest is the part of the express request verifyTilledWebhook
reads: the tilled-signature header value and the JSON-parsed body. -/
structure WebhookRequest where
  tilledSignature : HeaderValue
  body : Json

/-- verifyTilledWebhook from src/server.js lines 183-214.  nowMs models
Date.now().  The Except.error results are the exceptions the function lets
escape to its caller (the route handler's catch block). -/
def verifyTilledWebhook (req : WebhookRequest) (webhookSecret : String) (nowMs : Int)
    (tolerance : Int) : Except String Bool :=
  if headerFalsy req.tilledSignature then .ok false
  else
    match parseHeader req.tilledSignature SCHEME with
    | none => .ok false
    | some details =>
      if details.timestamp = .sentinel ∨ details.signature = .sentinel then .ok false
      else
        let now := nowMs.fdiv 1000
        if timestampOutsideTolerance now details.timestamp tolerance then .ok false
        else
          signatureComparison (hmacSHA256Hex webhookSecret (signedPayload details.timestamp req.body))
            details.signature

/-! The UPS OAuth token cache, embedded from src/server.js lines 444-501.

The process-wide mutable variable upsTokenCache is modelled by explicit
state passing; one call of getUPSToken receives the cache state and the
current time (Date.now(), read once at entry as in the source) and returns
the result, the cache state after the call, and how many token-endpoint
requests it issued.  The axios call is modelled by its outcome: success
with a response body, or failure (network error, timeout, HTTP error
status), in which case axios throws and the catch block rethrows. -/

/-- UPSTokenCache is the shape of the upsTokenCache record: token null or a
string, expiresAt in epoch milliseconds. -/
structure UPSTokenCache where
  token : Option String
  expiresAt : Int
deriving DecidableEq

/-- upsTokenCache is the initial cache value from lines 444-447. -/
def upsTokenCache : UPSTokenCache := { token := none, expiresAt := 0 }

/-- UPSTokenResponse is the token-endpoint response body as the code reads
it: access_token may be missing, expires_in in seconds. -/
structure UPSTokenResponse where
  access_token : Option String
  expires_in : Int
deriving DecidableEq

/-- UPSFetchOutcome is the outcome of the axios.post to the token endpoint:
a response body on HTTP success, or a thrown error (network failure,
timeout, or an HTTP error status). -/
inductive UPSFetchOutcome where
  | success (r : UPSTokenResponse) : UPSFetchOutcome
  | failure (err : String) : UPSFetchOutcome
deriving DecidableEq

/-- jsTruthyStr is JavaScript truthiness of a string-or-null value: null,
undefined and the empty string are falsy. -/
def jsTruthyStr : Option String → Bool
  | none => false
  | some s => decide (s ≠ "")

/-- UPSTokenResult gathers what one getUPSToken call produces: the returned
token or thrown error, the cache state after the call, and the number of
token-endpoint requests made. -/
structure UPSTokenResult where
  result : Except String String
  cache : UPSTokenCache
  networkCalls : Nat

/-- getUPSToken from src/server.js lines 449-501: return the cached token if
it is truthy and not yet expired; otherwise call the token endpoint, rethrow
its error on failure, throw when the response has no access_token, and
otherwise overwrite the whole cache record in a single assignment with the
new token and now + (expires_in - 60) * 1000 before returning the token. -/
def getUPSToken (cache : UPSTokenCache) (nowMs : Int) (endpoint : UPSFetchOutcome) :
    UPSTokenResult :=
  if jsTruthyStr cache.token ∧ cache.expiresAt > nowMs then
    { result := .ok (cache.token.getD ""), cache := cache, networkCalls := 0 }
  else
    match endpoint with
    | .failure err => { result := .error err, cache := cache, networkCalls := 1 }
    | .success r =>
      if jsTruthyStr r.access_token then
        { result := .ok (r.access_token.getD "")
          cache := { token := r.access_token, expiresAt := nowMs + (r.expires_in - 60) * 1000 }
          networkCalls := 1 }
      else
        { result := .error "UPS OAuth did not return access_token", cache := cache
          networkCalls := 1 }

/-- Equality of modelled call results (thrown error or returned boolean) is
decidable, so concrete runs of the verifier can be checked by evaluation. -/
instance : DecidableEq (Except String Bool) := fun a b =>
  match a, b with
  | .error e1, .error e2 =>
    if h : e1 = e2 then isTrue (by rw [h]) else isFalse (fun hh => by cases hh; exact h rfl)
  | .ok b1, .ok b2 =>
    if h : b1 = b2 then isTrue (by rw [h]) else isFalse (fun hh => by cases hh; exact h rfl)
  | .error _, .ok _ => isFalse (fun hh => by cases hh)
  | .ok _, .error _ => isFalse (fun hh => by cases hh)

/-! Helper lemmas. -/

/-- Each unpacked word byte is below 256. -/
theorem wordBytes_lt (w b : Nat) (hb : b ∈ wordBytes w) : b < 256 := by
  simp only [wordBytes, List.mem_cons, List.not_mem_nil, or_false] at hb
  rcases hb with rfl | rfl | rfl | rfl <;> exact Nat.mod_lt _ (by norm_num)

/-- A SHA-256 digest has 32 bytes. -/
theorem sha256_length (msg : List Nat) : (sha256 msg).length = 32 := by
  simp [sha256, wordBytes]

/-- Every byte of a SHA-256 digest is below 256. -/
theorem sha256_lt (msg : List Nat) : ∀ b ∈ sha256 msg, b < 256 := by
  intro b hb
  simp only [sha256, List.mem_append] at hb
  rcases hb with ((((((h | h) | h) | h) | h) | h) | h) | h <;> exact wordBytes_lt _ _ h

/-- An HMAC-SHA256 tag has 32 bytes. -/
theorem hmacSHA256_length (key msg : List Nat) : (hmacSHA256 key msg).length = 32 :=
  sha256_length _

/-- Every byte of an HMAC-SHA256 tag is below 256. -/
theorem hmacSHA256_lt (key msg : List Nat) : ∀ b ∈ hmacSHA256 key msg, b < 256 :=
  sha256_lt _

/-- hexVal inverts hexDigit on values below 16. -/
theorem hexVal_hexDigit (n : Nat) (h : n < 16) : hexVal (hexDigit n) = some n := by
  have hfin : ∀ m : Fin 16, hexVal (hexDigit m.1) = some m.1 := by decide
  exact hfin ⟨n, h⟩

/-- The characters of a hex rendering, one cons step. -/
theorem bytesToHex_data_cons (b : Nat) (bs : List Nat) :
    (bytesToHex (b :: bs)).data = hexDigit (b / 16) :: hexDigit (b % 16) :: (bytesToHex bs).data :=
  rfl

/-- Buffer.from(·, 'hex') inverts the hex rendering of genuine bytes. -/
theorem bufferFromHex_bytesToHex (bs : List Nat) (h : ∀ b ∈ bs, b < 256) :
    bufferFromHex (bytesToHex bs).data = bs := by
  induction bs with
  | nil => rfl
  | cons b rest ih =>
    have hb : b < 256 := h b (List.mem_cons_self _ _)
    rw [bytesToHex_data_cons]
    simp only [bufferFromHex, hexVal_hexDigit (b / 16) (by omega),
      hexVal_hexDigit (b % 16) (by omega)]
    rw [ih (fun x hx => h x (List.mem_cons_of_mem _ hx))]
    congr 1
    omega

/-- The rational replay test, restated over integers: the absolute difference
exceeds the tolerance exactly when the millisecond distance between
1000 * now and the parsed timestamp exceeds 1000 * tolerance. -/
theorem timestampOutsideTolerance_int (now : Int) (tsRaw : TSVal) (tolerance : Int) :
    timestampOutsideTolerance now tsRaw tolerance =
      match jsParseInt tsRaw with
      | none => false
      | some t => decide (1000 * tolerance < ((1000 * now - t).natAbs : Int)) := by
  unfold timestampOutsideTolerance
  cases hj : jsParseInt tsRaw with
  | none => rfl
  | some t =>
    simp only []
    apply decide_eq_decide.mpr
    rw [show (now : ℚ) - (t : ℚ) / 1000 = ((1000 * now - t : Int) : ℚ) / 1000 by push_cast; ring]
    rw [gt_iff_lt, abs_div, show |(1000 : ℚ)| = 1000 by norm_num,
      lt_div_iff₀ (by norm_num : (0 : ℚ) < 1000)]
    rw [show |((1000 * now - t : Int) : ℚ)| = (((1000 * now - t).natAbs : Int) : ℚ) by
      rw [← Int.cast_abs, Int.abs_eq_natAbs]]
    rw [show (tolerance : ℚ) * 1000 = ((1000 * tolerance : Int) : ℚ) by push_cast; ring]
    exact Int.cast_lt

/-- A fold of parseHeaderStep over items none of which has key 't' leaves the
timestamp field of the accumulator unchanged. -/
theorem foldl_parseHeaderStep_timestamp (scheme : String) (items : List (List Char))
    (acc : ParsedHeader) (h : ∀ item ∈ items, kvKey (splitOnChar '=' item) ≠ "t".data) :
    (items.foldl (parseHeaderStep scheme) acc).timestamp = acc.timestamp := by
  induction items generalizing acc with
  | nil => rfl
  | cons it rest ih =>
    rw [List.foldl_cons, ih _ (fun x hx => h x (List.mem_cons_of_mem _ hx))]
    have hk := h it (List.mem_cons_self _ _)
    unfold parseHeaderStep
    simp only [if_neg hk]
    split <;> rfl

/-- A fold of parseHeaderStep over items none of which has the scheme key
leaves the signature field of the accumulator unchanged. -/
theorem foldl_parseHeaderStep_signature (scheme : String) (items : List (List Char))
    (acc : ParsedHeader) (h : ∀ item ∈ items, kvKey (splitOnChar '=' item) ≠ scheme.data) :
    (items.foldl (parseHeaderStep scheme) acc).signature = acc.signature := by
  induction items generalizing acc with
  | nil => rfl
  | cons it rest ih =>
    rw [List.foldl_cons, ih _ (fun x hx => h x (List.mem_cons_of_mem _ hx))]
    have hk := h it (List.mem_cons_self _ _)
    unfold parseHeaderStep
    simp only [if_neg hk]
    split <;> rfl

/-- When the header is a non-empty string that parses to non-sentinel
timestamp and signature values and the replay check passes, the verifier's
result is exactly the final signature comparison. -/
theorem verify_eq_signatureComparison (s : String) (body : Json) (secret : String)
    (nowMs tol : Int) (tsv sigv : TSVal)
    (hparse : parseHeader (.str s) SCHEME = some ⟨tsv, sigv⟩)
    (hs : s ≠ "") (hts : tsv ≠ .sentinel) (hsig : sigv ≠ .sentinel)
    (hfresh : timestampOutsideTolerance (nowMs.fdiv 1000) tsv tol = false) :
    verifyTilledWebhook ⟨.str s, body⟩ secret nowMs tol =
      signatureComparison (hmacSHA256Hex secret (signedPayload tsv body)) sigv := by
  unfold verifyTilledWebhook
  rw [show (⟨.str s, body⟩ : WebhookRequest).tilledSignature = .str s from rfl,
    if_neg (by simp [headerFalsy, hs]), hparse]
  simp only []
  rw [if_neg (by simp [hts, hsig]), if_neg (by simp [hfresh])]

/-- When the header is a non-empty string that parses to non-sentinel
timestamp and signature values but the replay check fails, the verifier
returns false. -/
theorem verify_eq_false_of_stale (s : String) (body : Json) (secret : String)
    (nowMs tol : Int) (tsv sigv : TSVal)
    (hparse : parseHeader (.str s) SCHEME = some ⟨tsv, sigv⟩)
    (hs : s ≠ "") (hts : tsv ≠ .sentinel) (hsig : sigv ≠ .sentinel)
    (hfresh : timestampOutsideTolerance (nowMs.fdiv 1000) tsv tol = true) :
    verifyTilledWebhook ⟨.str s, body⟩ secret nowMs tol = .ok false := by
  unfold verifyTilledWebhook
  rw [show (⟨.str s, body⟩ : WebhookRequest).tilledSignature = .str s from rfl,
    if_neg (by simp [headerFalsy, hs]), hparse]
  simp only []
  rw [if_neg (by simp [hts, hsig]), if_pos (by simp [hfresh])]

/-! Claim theorems. -/

/-- Claim C6: whenever the cache holds a non-empty token whose expiresAt
instant is strictly in the future at call time, getUPSToken returns that
cached token, performs zero calls to the token endpoint, and leaves the
cache as it was — whatever the endpoint would have answered. -/
theorem tilled_C6_cache_hit (cache : UPSTokenCache) (nowMs : Int)
    (endpoint : UPSFetchOutcome) (tok : String)
    (htok : cache.token = some tok) (hne : tok ≠ "") (hfut : cache.expiresAt > nowMs) :
    getUPSToken cache nowMs endpoint = ⟨.ok tok, cache, 0⟩ := by
  unfold getUPSToken
  rw [if_pos ⟨by simp [jsTruthyStr, htok, hne], hfut⟩]
  simp [htok]

/-- Witness for C6: a cached token "tokA" expiring at 100 is returned at
time 50 with zero network calls, even though the endpoint would fail. -/
theorem tilled_C6_witness :
    getUPSToken ⟨some "tokA", 100⟩ 50 (.failure "connection refused") =
      ⟨.ok "tokA", ⟨some "tokA", 100⟩, 0⟩ :=
  tilled_C6_cache_hit ⟨some "tokA", 100⟩ 50 (.failure "connection refused") "tokA"
    rfl (by decide) (by decide)

/-- Claim C7: when the cached token is not usable (so a token-endpoint call
happens) and that call fails or its response lacks a truthy access_token,
getUPSToken propagates an error and the cache — token and expiresAt — is
left exactly as it was before the call. -/
theorem tilled_C7_failure_preserves_cache (cache : UPSTokenCache) (nowMs : Int)
    (endpoint : UPSFetchOutcome)
    (hmiss : ¬(jsTruthyStr cache.token = true ∧ cache.expiresAt > nowMs))
    (hfail : (∃ e, endpoint = .failure e) ∨
             (∃ r, endpoint = .success r ∧ jsTruthyStr r.access_token = false)) :
    (∃ e, (getUPSToken cache nowMs endpoint).result = .error e) ∧
    (getUPSToken cache nowMs endpoint).cache = cache ∧
    (getUPSToken cache nowMs endpoint).networkCalls = 1 := by
  unfold getUPSToken
  rw [if_neg hmiss]
  rcases hfail with ⟨e, rfl⟩ | ⟨r, rfl, hr⟩
  · exact ⟨⟨e, rfl⟩, rfl, rfl⟩
  · simp only []
    rw [if_neg (by simp [hr])]
    exact ⟨⟨_, rfl⟩, rfl, rfl⟩

/-- Witness for C7: with an expired cached token "old", a response lacking
access_token yields an error and leaves the cached pair ("old", 10)
untouched after exactly one endpoint call. -/
theorem tilled_C7_witness :
    (∃ e, (getUPSToken ⟨some "old", 10⟩ 50 (.success ⟨none, 3600⟩)).result = .error e) ∧
    (getUPSToken ⟨some "old", 10⟩ 50 (.success ⟨none, 3600⟩)).cache = ⟨some "old", 10⟩ ∧
    (getUPSToken ⟨some "old", 10⟩ 50 (.success ⟨none, 3600⟩)).networkCalls = 1 :=
  tilled_C7_failure_preserves_cache ⟨some "old", 10⟩ 50 (.success ⟨none, 3600⟩)
    (by decide) (Or.inr ⟨⟨none, 3600⟩, rfl, by decide⟩)

/-- Claim C8: on a successful fetch (cache not usable, endpoint returns a
truthy access_token), getUPSToken stores the returned token with expiry
now + (expires_in - 60) * 1000 milliseconds, reports one endpoint call, and
returns the newly fetched token. -/
theorem tilled_C8_success_updates_cache (cache : UPSTokenCache) (nowMs : Int)
    (r : UPSTokenResponse) (tok : String)
    (hmiss : ¬(jsTruthyStr cache.token = true ∧ cache.expiresAt > nowMs))
    (htok : r.access_token = some tok) (hne : tok ≠ "") :
    getUPSToken cache nowMs (.success r) =
      ⟨.ok tok, ⟨some tok, nowMs + (r.expires_in - 60) * 1000⟩, 1⟩ := by
  unfold getUPSToken
  rw [if_neg hmiss]
  simp only []
  rw [if_pos (by simp [jsTruthyStr, htok, hne])]
  simp [htok]

/-- Witness for C8: an empty cache at time 1000 and a response with token
"newTok" and expires_in 3600 produce the cached pair
(some "newTok", 1000 + (3600 - 60) * 1000) and return "newTok" after one
call. -/
theorem tilled_C8_witness :
    getUPSToken upsTokenCache 1000 (.success ⟨some "newTok", 3600⟩) =
      ⟨.ok "newTok", ⟨some "newTok", 3541000⟩, 1⟩ :=
  tilled_C8_success_updates_cache upsTokenCache 1000 ⟨some "newTok", 3600⟩ "newTok"
    (by decide) rfl (by decide)

/-- Claim C9: one getUPSToken call changes the cache in a single whole-record
step: the cache after the call is either exactly the record from before the
call or the fully refreshed record whose token and expiry both come from the
same successful fetch — never a mixed pair. -/
theorem tilled_C9_atomic_swap (cache : UPSTokenCache) (nowMs : Int)
    (endpoint : UPSFetchOutcome) :
    (getUPSToken cache nowMs endpoint).cache = cache ∨
    ∃ r tok, endpoint = .success r ∧ r.access_token = some tok ∧ tok ≠ "" ∧
      (getUPSToken cache nowMs endpoint).cache =
        { token := some tok, expiresAt := nowMs + (r.expires_in - 60) * 1000 } := by
  unfold getUPSToken
  by_cases hc : jsTruthyStr cache.token = true ∧ cache.expiresAt > nowMs
  · rw [if_pos hc]; exact Or.inl rfl
  · rw [if_neg hc]
    cases endpoint with
    | failure e => exact Or.inl rfl
    | success r =>
      simp only []
      by_cases ht : jsTruthyStr r.access_token = true
      · rw [if_pos ht]
        cases hr : r.access_token with
        | none => rw [hr] at ht; simp [jsTruthyStr] at ht
        | some tok =>
          rw [hr] at ht
          simp only [jsTruthyStr, decide_eq_true_eq] at ht
          exact Or.inr ⟨r, tok, rfl, hr, ht, by simp [hr]⟩
      · rw [if_neg ht]; exact Or.inl rfl

/-- Claim C5: verification returns false — with no exception — whenever the
tilled-signature header is absent, not a string, or a string whose
comma-separated items contain no item with key t or no item with key v1,
regardless of any other items present. -/
theorem tilled_C5_missing_parts :
    (∀ (body : Json) (secret : String) (nowMs tol : Int),
       verifyTilledWebhook ⟨.absent, body⟩ secret nowMs tol = .ok false) ∧
    (∀ (body : Json) (secret : String) (nowMs tol : Int),
       verifyTilledWebhook ⟨.nonString, body⟩ secret nowMs tol = .ok false) ∧
    (∀ (s : String) (body : Json) (secret : String) (nowMs tol : Int),
       (∀ item ∈ splitOnChar ',' s.data, kvKey (splitOnChar '=' item) ≠ "t".data) →
       verifyTilledWebhook ⟨.str s, body⟩ secret nowMs tol = .ok false) ∧
    (∀ (s : String) (body : Json) (secret : String) (nowMs tol : Int),
       (∀ item ∈ splitOnChar ',' s.data, kvKey (splitOnChar '=' item) ≠ SCHEME.data) →
       verifyTilledWebhook ⟨.str s, body⟩ secret nowMs tol = .ok false) := by
  refine ⟨fun body secret nowMs tol => rfl, fun body secret nowMs tol => rfl, ?_, ?_⟩
  · intro s body secret nowMs tol h
    have hts := foldl_parseHeaderStep_timestamp SCHEME (splitOnChar ',' s.data)
      { timestamp := .sentinel, signature := .sentinel } h
    unfold verifyTilledWebhook
    by_cases hs : headerFalsy (.str s) = true
    · rw [if_pos hs]
    · rw [if_neg hs]
      simp only [parseHeader]
      rw [if_pos (Or.inl hts)]
  · intro s body secret nowMs tol h
    have hsg := foldl_parseHeaderStep_signature SCHEME (splitOnChar ',' s.data)
      { timestamp := .sentinel, signature := .sentinel } h
    unfold verifyTilledWebhook
    by_cases hs : headerFalsy (.str s) = true
    · rw [if_pos hs]
    · rw [if_neg hs]
      simp only [parseHeader]
      rw [if_pos (Or.inr hsg)]

/-- Witness for C5: an absent header, a non-string header, a header without a
t item, and a header without a v1 item are all rejected with a plain false. -/
theorem tilled_C5_witness :
    verifyTilledWebhook ⟨.absent, Json.obj []⟩ "whsec_test" 1700000000000 300 = .ok false ∧
    verifyTilledWebhook ⟨.nonString, Json.obj []⟩ "whsec_test" 1700000000000 300 = .ok false ∧
    verifyTilledWebhook ⟨.str "x=1,v1=abcd", Json.obj []⟩ "whsec_test" 1700000000000 300 =
      .ok false ∧
    verifyTilledWebhook ⟨.str "t=1700000000000,TS=abcd", Json.obj []⟩ "whsec_test"
      1700000000000 300 = .ok false :=
  ⟨tilled_C5_missing_parts.1 (Json.obj []) "whsec_test" 1700000000000 300,
   tilled_C5_missing_parts.2.1 (Json.obj []) "whsec_test" 1700000000000 300,
   tilled_C5_missing_parts.2.2.1 "x=1,v1=abcd" (Json.obj []) "whsec_test" 1700000000000 300
     (by decide),
   tilled_C5_missing_parts.2.2.2 "t=1700000000000,TS=abcd" (Json.obj []) "whsec_test"
     1700000000000 300 (by decide)⟩

/-- Claim C10: when the header has a t item whose value does not parse as an
integer (parseInt yields NaN), the replay comparison
Math.abs(now - NaN) > tolerance is false, so the verifier is never rejected
at the staleness step and its outcome is exactly the final HMAC signature
comparison. -/
theorem tilled_C10_nan_timestamp (s : String) (body : Json) (secret : String)
    (nowMs tol : Int) (tsv sigv : TSVal)
    (hparse : parseHeader (.str s) SCHEME = some ⟨tsv, sigv⟩)
    (hs : s ≠ "") (hts : tsv ≠ .sentinel) (hsig : sigv ≠ .sentinel)
    (hnan : jsParseInt tsv = none) :
    timestampOutsideTolerance (nowMs.fdiv 1000) tsv tol = false ∧
    verifyTilledWebhook ⟨.str s, body⟩ secret nowMs tol =
      signatureComparison (hmacSHA256Hex secret (signedPayload tsv body)) sigv := by
  have htol : timestampOutsideTolerance (nowMs.fdiv 1000) tsv tol = false := by
    unfold timestampOutsideTolerance
    rw [hnan]
  exact ⟨htol, verify_eq_signatureComparison s body secret nowMs tol tsv sigv
    hparse hs hts hsig htol⟩

/-- Witness for C10: the header t=abc,v1=12 passes the staleness step at any
clock value (tolerance 300), and the verifier's outcome is the signature
comparison itself. -/
theorem tilled_C10_witness :
    timestampOutsideTolerance ((1700000000000 : Int).fdiv 1000) (.str "abc") 300 = false ∧
    verifyTilledWebhook ⟨.str "t=abc,v1=12", Json.obj []⟩ "whsec_test" 1700000000000 300 =
      signatureComparison
        (hmacSHA256Hex "whsec_test" (signedPayload (.str "abc") (Json.obj []))) (.str "12") :=
  tilled_C10_nan_timestamp "t=abc,v1=12" (Json.obj []) "whsec_test" 1700000000000 300
    (.str "abc") (.str "12") (by decide) (by decide) (by decide) (by decide) (by decide)

/-- Claim C4: the default tolerance is 300 seconds; a parsed timestamp whose
second-converted distance from the current time is exactly the tolerance
passes the freshness check, and one whose distance is at least tolerance
plus one second makes the verifier return false.  Distances are stated in
exact milliseconds: 1000 * tolerance is the tolerance and
(1000 * now - t).natAbs the distance of the parsed value t from now. -/
theorem tilled_C4_tolerance_boundary :
    (defaultToleranceSeconds = 300) ∧
    (∀ (now : Int) (tsv : TSVal) (tol t : Int),
       jsParseInt tsv = some t →
       ((1000 * now - t).natAbs : Int) = 1000 * tol →
       timestampOutsideTolerance now tsv tol = false) ∧
    (∀ (s : String) (body : Json) (secret : String) (nowMs tol : Int)
       (tsv sigv : TSVal) (t : Int),
       parseHeader (.str s) SCHEME = some ⟨tsv, sigv⟩ → s ≠ "" →
       tsv ≠ .sentinel → sigv ≠ .sentinel →
       jsParseInt tsv = some t →
       1000 * (tol + 1) ≤ ((1000 * (nowMs.fdiv 1000) - t).natAbs : Int) →
       verifyTilledWebhook ⟨.str s, body⟩ secret nowMs tol = .ok false) := by
  refine ⟨rfl, ?_, ?_⟩
  · intro now tsv tol t hj hd
    rw [timestampOutsideTolerance_int, hj]
    simp only []
    rw [hd]
    simp
  · intro s body secret nowMs tol tsv sigv t hparse hs hts hsig hj hd
    refine verify_eq_false_of_stale s body secret nowMs tol tsv sigv hparse hs hts hsig ?_
    rw [timestampOutsideTolerance_int, hj]
    simp only [decide_eq_true_eq]
    omega

/-- Witness for C4: with now = 1700000300 s, the millisecond timestamp
1700000000000 is exactly 300 s old and passes; with Date.now() =
1700000000000 ms, the timestamp 1699999699000 is 301 s old and the request
is rejected. -/
theorem tilled_C4_witness :
    timestampOutsideTolerance 1700000300 (.str "1700000000000") 300 = false ∧
    verifyTilledWebhook ⟨.str "t=1699999699000,v1=abcd", Json.obj []⟩ "whsec_test"
      1700000000000 300 = .ok false :=
  ⟨tilled_C4_tolerance_boundary.2.1 1700000300 (.str "1700000000000") 300 1700000000000
     (by decide) (by decide),
   tilled_C4_tolerance_boundary.2.2 "t=1699999699000,v1=abcd" (Json.obj []) "whsec_test"
     1700000000000 300 (.str "1699999699000") (.str "abcd") 1699999699000
     (by decide) (by decide) (by decide) (by decide) (by decide) (by decide)⟩

/-- Claim C3: a request whose header carries the header's own timestamp
string and the hex HMAC-SHA256 of timestamp.JSON.stringify(body) under the
shared secret verifies true when the replay check passes, and the same
request with a body whose payload HMAC differs (any tampering that changes
the tag, e.g. one character of a field value) verifies false. -/
theorem tilled_C3_roundtrip_tamper (secret : String) (body tampered : Json)
    (s ts sig : String) (nowMs tol : Int)
    (hparse : parseHeader (.str s) SCHEME = some ⟨.str ts, .str sig⟩)
    (hs : s ≠ "")
    (hfresh : timestampOutsideTolerance (nowMs.fdiv 1000) (.str ts) tol = false)
    (hsig : sig = hmacSHA256Hex secret (signedPayload (.str ts) body))
    (htamper : hmacSHA256 (strBytes secret) (strBytes (signedPayload (.str ts) tampered)) ≠
               hmacSHA256 (strBytes secret) (strBytes (signedPayload (.str ts) body))) :
    verifyTilledWebhook ⟨.str s, body⟩ secret nowMs tol = .ok true ∧
    verifyTilledWebhook ⟨.str s, tampered⟩ secret nowMs tol = .ok false := by
  constructor
  · rw [verify_eq_signatureComparison s body secret nowMs tol (.str ts) (.str sig) hparse hs
      (by simp) (by simp) hfresh]
    rw [hsig]
    unfold signatureComparison
    simp only []
    unfold timingSafeEqual
    rw [if_pos rfl]
    simp
  · rw [verify_eq_signatureComparison s tampered secret nowMs tol (.str ts) (.str sig) hparse hs
      (by simp) (by simp) hfresh]
    rw [hsig]
    unfold signatureComparison
    simp only []
    unfold hmacSHA256Hex
    rw [bufferFromHex_bytesToHex _ (hmacSHA256_lt _ _),
      bufferFromHex_bytesToHex _ (hmacSHA256_lt _ _)]
    unfold timingSafeEqual
    rw [if_pos (by rw [hmacSHA256_length, hmacSHA256_length])]
    simp [htamper]

set_option maxRecDepth 100000 in
/-- Witness for C3: the specification's end-to-end scenario.  With secret
whsec_test, body data.status = active, data.id = acct_1, timestamp
1700000000000 ms at current time 1700000000000 ms, the correctly signed
header verifies true; mutating one character of status (active to bctive)
makes verification return false. -/
theorem tilled_C3_witness :
    verifyTilledWebhook
      ⟨.str ("t=1700000000000,v1=" ++ hmacSHA256Hex "whsec_test"
          (signedPayload (.str "1700000000000")
            (Json.obj [("data", Json.obj [("status", Json.str "active"),
                                          ("id", Json.str "acct_1")])]))),
        Json.obj [("data", Json.obj [("status", Json.str "active"),
                                     ("id", Json.str "acct_1")])]⟩
      "whsec_test" 1700000000000 300 = .ok true ∧
    verifyTilledWebhook
      ⟨.str ("t=1700000000000,v1=" ++ hmacSHA256Hex "whsec_test"
          (signedPayload (.str "1700000000000")
            (Json.obj [("data", Json.obj [("status", Json.str "active"),
                                          ("id", Json.str "acct_1")])]))),
        Json.obj [("data", Json.obj [("status", Json.str "bctive"),
                                     ("id", Json.str "acct_1")])]⟩
      "whsec_test" 1700000000000 300 = .ok false :=
  tilled_C3_roundtrip_tamper "whsec_test"
    (Json.obj [("data", Json.obj [("status", Json.str "active"), ("id", Json.str "acct_1")])])
    (Json.obj [("data", Json.obj [("status", Json.str "bctive"), ("id", Json.str "acct_1")])])
    ("t=1700000000000,v1=" ++ hmacSHA256Hex "whsec_test"
      (signedPayload (.str "1700000000000")
        (Json.obj [("data", Json.obj [("status", Json.str "active"),
                                      ("id", Json.str "acct_1")])])))
    "1700000000000"
    (hmacSHA256Hex "whsec_test"
      (signedPayload (.str "1700000000000")
        (Json.obj [("data", Json.obj [("status", Json.str "active"),
                                      ("id", Json.str "acct_1")])])))
    1700000000000 300
    (by decide) (by decide)
    (by rw [timestampOutsideTolerance_int]; decide)
    rfl (by decide)

set_option maxRecDepth 100000 in
/-- Claim C1: the verifier does not sign the raw received body bytes; it
re-serializes the parsed body object.  The wire body with a space after the
colon parses to the object whose JSON.stringify drops that space, so the
payload the code feeds to the HMAC differs from the literal concatenation of
timestamp, dot and raw bytes — and a webhook correctly signed over the raw
received bytes (as the specification mandates) is rejected. -/
theorem tilled_C1_raw_body :
    jsonParse "\x7b\"a\": 1\x7d" = some (Json.obj [("a", Json.num 1)]) ∧
    signedPayload (.str "1700000000000") (Json.obj [("a", Json.num 1)]) ≠
      "1700000000000" ++ "." ++ "\x7b\"a\": 1\x7d" ∧
    verifyTilledWebhook
      ⟨.str ("t=1700000000000,v1=" ++ hmacSHA256Hex "whsec_test"
          ("1700000000000." ++ "\x7b\"a\": 1\x7d")),
        Json.obj [("a", Json.num 1)]⟩
      "whsec_test" 1700000000000 defaultToleranceSeconds = .ok false := by
  refine ⟨rfl, by decide, ?_⟩
  rw [verify_eq_signatureComparison _ _ _ _ _ (.str "1700000000000")
    (.str (hmacSHA256Hex "whsec_test" ("1700000000000." ++ "\x7b\"a\": 1\x7d")))
    (by decide) (by decide) (by simp) (by simp)
    (by rw [timestampOutsideTolerance_int]; decide)]
  decide

set_option maxRecDepth 100000 in
/-- Claim C2: the final comparison is not exception-free.  A fresh,
well-formed header whose v1 value decodes to two bytes drives
crypto.timingSafeEqual into its unequal-length error, which
verifyTilledWebhook does not catch: the call throws instead of returning
false. -/
theorem tilled_C2_unequal_length_throws :
    verifyTilledWebhook ⟨.str "t=1700000000000,v1=abcd", Json.obj []⟩ "whsec_test"
      1700000000000 defaultToleranceSeconds =
      .error "ERR_CRYPTO_TIMING_SAFE_EQUAL_LENGTH" := by
  rw [verify_eq_signatureComparison _ _ _ _ _ (.str "1700000000000") (.str "abcd")
    (by decide) (by decide) (by simp) (by simp)
    (by rw [timestampOutsideTolerance_int]; decide)]
  decide

end Tilled
